import Mathlib

/-!
Shallow embedding of the ES51922/UT803 digital-multimeter packet decoder
(source file es51922.py) together with theorems about its behaviour.

Python integers are modelled as Nat (raw bytes) and Int (the signed display
reading); the exact decimal arithmetic performed with decimal.Decimal is
modelled with Rat; fallible code (raise ValueError / KeyError / IndexError /
TypeError / AttributeError) is modelled with Except PyErr, one constructor
per raise site, matching the error taxonomy of the specification.
-/

/-- Python exception outcomes of the decoder, one constructor per raise site:
invalidStatusBits is the ValueError raised in get_bits on a fixed-bit
mismatch, unknownFunction the KeyError of the FUNCTION dictionary lookup,
noRangeTable the TypeError of subscripting None (temperature mode),
unknownRange the IndexError of a range-table lookup, conflictingCurrentType
the ValueError raised when both AC and DC are set, keyError a failed
options dictionary lookup, indexError a failed template subscript, and
attributeError the failure of calling append on a str. -/
inductive PyErr
  | invalidStatusBits
  | unknownFunction
  | unknownRange
  | noRangeTable
  | conflictingCurrentType
  | keyError
  | indexError
  | attributeError
  deriving DecidableEq

/-- test_bit from the source: true if the bit at the given offset is one. -/
def test_bit (int_type : Nat) (offset : Nat) : Bool :=
  int_type &&& (1 <<< offset) != 0

/-- A slot of a 4-element bit template: either a fixed literal bit (0 or 1)
or the name of a flag, as in the STATUS, OPTION1 and OPTION2 lists. -/
inductive Slot
  | lit (n : Nat)
  | flag (s : String)
  deriving DecidableEq

/-- Python dictionary assignment d[k] = v on a string-keyed dictionary of
booleans, modelled on an association list (replace if present, else append). -/
def dict_set (d : List (String × Bool)) (k : String) (v : Bool) :
    List (String × Bool) :=
  if d.any (fun p => p.1 == k) then d.map (fun p => if p.1 == k then (k, v) else p)
  else d ++ [(k, v)]

/-- Python dictionary lookup d[k], as an Option. -/
def dict_get (d : List (String × Bool)) (k : String) : Option Bool :=
  (d.find? (fun p => p.1 == k)).map Prod.snd

/-- Python dict.update: assign every key/value pair of the second argument
into the first, in order. -/
def dict_update (d : List (String × Bool)) (updates : List (String × Bool)) :
    List (String × Bool) :=
  updates.foldl (fun acc kv => dict_set acc kv.1 kv.2) d

/-- The body of the loop for i in range(4) of get_bits, iterating over the
remaining values of i.  For a literal slot the bit must equal the literal
(Python compares the bool bit with the int 0 or 1), otherwise ValueError;
for a named slot the bit is recorded under its name. -/
def get_bits_loop (int_type : Nat) (template : List Slot) :
    List Nat → List (String × Bool) → Except PyErr (List (String × Bool))
  | [], bits => Except.ok bits
  | i :: rest, bits =>
    match template[3 - i]? with
    | none => Except.error PyErr.indexError
    | some (.lit n) =>
      if test_bit int_type i = decide (n = 1) then get_bits_loop int_type template rest bits
      else Except.error PyErr.invalidStatusBits
    | some (.flag s) =>
      get_bits_loop int_type template rest (dict_set bits s (test_bit int_type i))

/-- get_bits from the source: extracts named bits from int_type following a
4-slot template; bit i is matched against template slot 3 - i. -/
def get_bits (int_type : Nat) (template : List Slot) :
    Except PyErr (List (String × Bool)) :=
  get_bits_loop int_type template (List.range 4) []

/-- STATUS template for the status byte. -/
def STATUS : List Slot := [.flag "JUDGE", .flag "SIGN", .flag "BATT", .flag "OL"]

/-- OPTION1 template for the first option byte; slot 3 (bit 0) is fixed 0. -/
def OPTION1 : List Slot := [.flag "HOLD", .flag "MAX", .flag "MIN", .lit 0]

/-- OPTION2 template for the second option byte; slot 3 (bit 0) is fixed 0. -/
def OPTION2 : List Slot := [.flag "DC", .flag "AC", .flag "AUTO", .lit 0]

/-- A range-table entry (value_multiplier, dp_digit_position, display_unit).
The float multipliers 1e0, 1e3, 1e-9 and so on of the source are modelled as
exact rationals; no claim depends on binary floating-point rounding. -/
structure RangeDesc where
  value_multiplier : ℚ
  dp_digit_position : Nat
  display_unit : String
  deriving DecidableEq

def RANGE_DIODE : List RangeDesc := [⟨1, 3, "V"⟩]

def RANGE_FREQUENCY : List RangeDesc :=
  [⟨1, 0, "Hz"⟩, ⟨1000, 2, "kHz"⟩, ⟨1000, 1, "kHz"⟩,
   ⟨1000000, 3, "MHz"⟩, ⟨1000000, 2, "MHz"⟩]

def RANGE_RESISTANCE : List RangeDesc :=
  [⟨1, 1, "Ω"⟩, ⟨1000, 3, "kΩ"⟩, ⟨1000, 2, "kΩ"⟩, ⟨1000, 1, "kΩ"⟩,
   ⟨1000000, 3, "MΩ"⟩, ⟨1000000, 2, "MΩ"⟩]

def RANGE_CONTINUITY : List RangeDesc := [⟨1, 1, "Ω"⟩]

def RANGE_CAPACITANCE : List RangeDesc :=
  [⟨1 / 1000000000, 3, "nF"⟩, ⟨1 / 1000000000, 2, "nF"⟩, ⟨1 / 1000000000, 1, "nF"⟩,
   ⟨1 / 1000000, 3, "µF"⟩, ⟨1 / 1000000, 2, "µF"⟩, ⟨1 / 1000000, 1, "µF"⟩,
   ⟨1 / 1000, 3, "mF"⟩]

def RANGE_CURRENT_10A : List RangeDesc := [⟨1, 2, "A"⟩]

def RANGE_VOLTAGE : List RangeDesc :=
  [⟨1, 3, "V"⟩, ⟨1, 2, "V"⟩, ⟨1, 1, "V"⟩, ⟨1, 0, "V"⟩, ⟨1 / 10, 1, "mV"⟩]

def RANGE_CURRENT_AUTO_UA : List RangeDesc :=
  [⟨1 / 1000000, 1, "µA"⟩, ⟨1 / 1000000, 0, "µA"⟩]

def RANGE_HFE : List RangeDesc := [⟨1, 0, "hFe"⟩]

def RANGE_CURRENT_AUTO_MA : List RangeDesc :=
  [⟨1 / 1000, 2, "mA"⟩, ⟨1 / 1000, 1, "mA"⟩]

/-- The FUNCTION registry: function code to (mode, range table, base unit);
code 0x04 (temperature) carries None in place of a range table. -/
def FUNCTION : Nat → Option (String × Option (List RangeDesc) × String)
  | 0x01 => some ("diode", some RANGE_DIODE, "V")
  | 0x02 => some ("frequency", some RANGE_FREQUENCY, "Hz")
  | 0x03 => some ("resistance", some RANGE_RESISTANCE, "Ω")
  | 0x04 => some ("temperature", none, "deg")
  | 0x05 => some ("continuity", some RANGE_CONTINUITY, "Ω")
  | 0x06 => some ("capacitance", some RANGE_CAPACITANCE, "F")
  | 0x09 => some ("current", some RANGE_CURRENT_10A, "A")
  | 0x0b => some ("voltage", some RANGE_VOLTAGE, "V")
  | 0x0d => some ("current", some RANGE_CURRENT_AUTO_UA, "A")
  | 0x0e => some ("current gain", some RANGE_HFE, "")
  | 0x0f => some ("current", some RANGE_CURRENT_AUTO_MA, "A")
  | _ => none

/-- One 9-byte packet, in wire order: range byte, four digit bytes, function
byte, status byte and the two option bytes. -/
structure Packet where
  range : Nat
  digit0 : Nat
  digit1 : Nat
  digit2 : Nat
  digit3 : Nat
  function : Nat
  status : Nat
  option1 : Nat
  option2 : Nat
  deriving DecidableEq

/-- The decoded result dictionary of parse.  The fields that Python fills
with None or with the empty string when unavailable are Options. -/
structure Measurement where
  value : Option ℚ
  unit : String
  display_value : Option ℚ
  display_unit : String
  mode : String
  current : Option String
  peak : Option String
  hold : Bool
  range : String
  operation : String
  battery_low : Bool
  deriving DecidableEq

/-- Python options[k]: the value when the key is present, KeyError otherwise. -/
def lookup_flag (options : List (String × Bool)) (k : String) : Except PyErr Bool :=
  match dict_get options k with
  | some b => Except.ok b
  | none => Except.error PyErr.keyError

/-- The first loop of parse: run get_bits over the status byte and the two
option bytes with their templates, in that order, accumulating the named
bits into one dictionary with dict.update. -/
def decode_options (d_status d_option1 d_option2 : Nat) :
    Except PyErr (List (String × Bool)) := do
  let bits_status ← get_bits d_status STATUS
  let bits_option1 ← get_bits d_option1 OPTION1
  let bits_option2 ← get_bits d_option2 OPTION2
  Except.ok (dict_update (dict_update (dict_update [] bits_status) bits_option1) bits_option2)

/-- The range-table subscription function[1][d_range & 0x0f] of line 184 of
the source: a TypeError when the table slot holds None (temperature), an
IndexError when the low nibble of the range byte is past the end of the
table, and the selected descriptor otherwise. -/
def range_lookup (tbl : Option (List RangeDesc)) (d_range : Nat) :
    Except PyErr RangeDesc :=
  match tbl with
  | none => Except.error PyErr.noRangeTable
  | some table =>
    match table[d_range &&& 0x0f]? with
    | none => Except.error PyErr.unknownRange
    | some r => Except.ok r

/-- The function and range resolution of parse, lines 181 to 189 of the
source: look the low nibble of the function byte up in FUNCTION (KeyError
when absent), subscript its range table with the low nibble of the range
byte, and apply the duty-cycle override when the mode is frequency and
JUDGE is set. -/
def resolve_mode_unit_range (d_function d_range : Nat)
    (options : List (String × Bool)) :
    Except PyErr (String × String × RangeDesc) :=
  match FUNCTION (d_function &&& 0x0f) with
  | none => Except.error PyErr.unknownFunction
  | some (mode, tbl, unit) => do
    let m_range ← range_lookup tbl d_range
    if mode == "frequency" then do
      let judge ← lookup_flag options "JUDGE"
      if judge then Except.ok ("duty_cycle", "%", ⟨1, 1, "%"⟩)
      else Except.ok (mode, unit, m_range)
    else Except.ok (mode, unit, m_range)

/-- parse from the source: decode one 9-byte packet into a Measurement or
the first Python exception raised along the way. -/
def parse (p : Packet) : Except PyErr Measurement := do
  let options ← decode_options p.status p.option1 p.option2
  let (mode, unit, m_range) ← resolve_mode_unit_range p.function p.range options
  let ac ← lookup_flag options "AC"
  let dc ← lookup_flag options "DC"
  if ac && dc then
    Except.error PyErr.conflictingCurrentType
  else do
    let current : Option String := if dc then some "DC" else if ac then some "AC" else none
    let ol ← lookup_flag options "OL"
    let operation := if ol then "overload" else "normal"
    let auto ← lookup_flag options "AUTO"
    let mrange := if auto then "auto" else "manual"
    let batt ← lookup_flag options "BATT"
    let battery_low := if batt then true else false
    let holdF ← lookup_flag options "HOLD"
    let hold := if holdF then true else false
    let maxF ← lookup_flag options "MAX"
    let minF ← lookup_flag options "MIN"
    let peak : Option String := if maxF then some "max" else if minF then some "min" else none
    let digits := [p.digit0 &&& 0x0f, p.digit1 &&& 0x0f, p.digit2 &&& 0x0f, p.digit3 &&& 0x0f]
    let display_value_int : ℤ :=
      ((List.range 4).zip digits).foldl (fun acc pr => acc + (pr.2 : ℤ) * 10 ^ (3 - pr.1)) 0
    let sign ← lookup_flag options "SIGN"
    let display_value_int := if sign then -display_value_int else display_value_int
    let display_value : ℚ := (display_value_int : ℚ) / 10 ^ m_range.dp_digit_position
    let display_unit := m_range.display_unit
    let value : ℚ := display_value * m_range.value_multiplier
    let display_value_out : Option ℚ := if operation ≠ "normal" then none else some display_value
    let value_out : Option ℚ := if operation ≠ "normal" then none else some value
    Except.ok
      { value := value_out
        unit := unit
        display_value := display_value_out
        display_unit := display_unit
        mode := mode
        current := current
        peak := peak
        hold := hold
        range := mrange
        operation := operation
        battery_low := battery_low }

/-- The smallest number of decimal fraction digits with which a rational can
be written exactly; models the exponent of the Decimal produced by the exact
division in parse (used only to render the value as Python str would). -/
def decExp (q : ℚ) : Nat :=
  ((List.range 28).find? (fun e => (q * 10 ^ e).den == 1)).getD 0

/-- Renders a rational the way Python str renders the Decimal computed by
parse: minimal decimal digits, with a decimal point when needed. -/
def decimalStr (q : ℚ) : String :=
  let sgn := if q < 0 then "-" else ""
  let e := decExp q
  let mag := (q * 10 ^ e).num.natAbs
  if e = 0 then sgn ++ toString mag
  else
    let s := toString mag
    let s := if s.length ≤ e then String.mk (List.replicate (e + 1 - s.length) '0') ++ s else s
    sgn ++ (s.take (s.length - e)) ++ "." ++ (s.drop (s.length - e))

/-- Python str of the display_value field: a Decimal rendering when present,
and str of the empty string when the value was suppressed. -/
def display_value_str : Option ℚ → String
  | none => ""
  | some q => decimalStr q

/-- output_readable from the source.  It formats one line from the results
dictionary; when battery_low is set it then evaluates line.append, but a
Python str has no append method, so the call raises AttributeError before
anything is returned. -/
def output_readable (results : Measurement) : Except PyErr String :=
  let operation := results.operation
  let battery_low := results.battery_low
  let line :=
    if operation == "normal" then
      display_value_str results.display_value ++ " " ++ results.display_unit
    else
      "-, the measurement is " ++ operation ++ "ed!"
  if battery_low then Except.error PyErr.attributeError
  else Except.ok line

/-! Characterization lemmas used by the claim proofs. -/

theorem exc_bind_ok {α β : Type} (a : α) (k : α → Except PyErr β) :
    (Except.ok a >>= k) = k a := rfl

theorem exc_bind_error {α β : Type} (e : PyErr) (k : α → Except PyErr β) :
    ((Except.error e : Except PyErr α) >>= k) = Except.error e := rfl

theorem list_range_four : List.range 4 = [0, 1, 2, 3] := rfl

/-- The status template has no fixed bits, so decoding it always succeeds
and records the four low bits of the byte under their names. -/
theorem get_bits_STATUS (x : Nat) :
    get_bits x STATUS =
      Except.ok [("OL", test_bit x 0), ("BATT", test_bit x 1),
                 ("SIGN", test_bit x 2), ("JUDGE", test_bit x 3)] := rfl

/-- Decoding the first option byte fails exactly when its fixed-zero bit 0
is set, and otherwise records bits 1 to 3. -/
theorem get_bits_OPTION1 (x : Nat) :
    get_bits x OPTION1 =
      if test_bit x 0 then Except.error PyErr.invalidStatusBits
      else Except.ok [("MIN", test_bit x 1), ("MAX", test_bit x 2), ("HOLD", test_bit x 3)] := by
  show (if test_bit x 0 = decide (0 = 1) then
          get_bits_loop x OPTION1 [1, 2, 3] []
        else Except.error PyErr.invalidStatusBits) = _
  cases h : test_bit x 0 <;> rfl

/-- Decoding the second option byte fails exactly when its fixed-zero bit 0
is set, and otherwise records bits 1 to 3. -/
theorem get_bits_OPTION2 (x : Nat) :
    get_bits x OPTION2 =
      if test_bit x 0 then Except.error PyErr.invalidStatusBits
      else Except.ok [("AUTO", test_bit x 1), ("AC", test_bit x 2), ("DC", test_bit x 3)] := by
  show (if test_bit x 0 = decide (0 = 1) then
          get_bits_loop x OPTION2 [1, 2, 3] []
        else Except.error PyErr.invalidStatusBits) = _
  cases h : test_bit x 0 <;> rfl

/-- The combined options dictionary built by the decoding loop of parse,
keyed in insertion order. -/
def optsList (s o1 o2 : Nat) : List (String × Bool) :=
  [("OL", test_bit s 0), ("BATT", test_bit s 1), ("SIGN", test_bit s 2), ("JUDGE", test_bit s 3),
   ("MIN", test_bit o1 1), ("MAX", test_bit o1 2), ("HOLD", test_bit o1 3),
   ("AUTO", test_bit o2 1), ("AC", test_bit o2 2), ("DC", test_bit o2 3)]

/-- Closed form of the options-decoding loop of parse. -/
theorem decode_options_eq (s o1 o2 : Nat) :
    decode_options s o1 o2 =
      if test_bit o1 0 then Except.error PyErr.invalidStatusBits
      else if test_bit o2 0 then Except.error PyErr.invalidStatusBits
      else Except.ok (optsList s o1 o2) := by
  unfold decode_options
  rw [get_bits_STATUS, exc_bind_ok, get_bits_OPTION1]
  cases h1 : test_bit o1 0
  · rw [if_neg (by simp [h1]), exc_bind_ok, get_bits_OPTION2]
    cases h2 : test_bit o2 0
    · rw [if_neg (by simp [h2]), exc_bind_ok]
      simp [dict_update, dict_set, optsList]
    · rw [if_pos (by simp [h2])]
      rfl
  · rw [if_pos (by simp [h1])]
    rfl

theorem decode_options_ok_iff (s o1 o2 : Nat) (opts : List (String × Bool)) :
    decode_options s o1 o2 = Except.ok opts ↔
      test_bit o1 0 = false ∧ test_bit o2 0 = false ∧ opts = optsList s o1 o2 := by
  rw [decode_options_eq]
  cases h1 : test_bit o1 0 <;> cases h2 : test_bit o2 0 <;> simp
  exact eq_comm

theorem lf_OL (s o1 o2 : Nat) :
    lookup_flag (optsList s o1 o2) "OL" = Except.ok (test_bit s 0) := by
  simp [lookup_flag, dict_get, optsList]

theorem lf_BATT (s o1 o2 : Nat) :
    lookup_flag (optsList s o1 o2) "BATT" = Except.ok (test_bit s 1) := by
  simp [lookup_flag, dict_get, optsList]

theorem lf_SIGN (s o1 o2 : Nat) :
    lookup_flag (optsList s o1 o2) "SIGN" = Except.ok (test_bit s 2) := by
  simp [lookup_flag, dict_get, optsList]

theorem lf_JUDGE (s o1 o2 : Nat) :
    lookup_flag (optsList s o1 o2) "JUDGE" = Except.ok (test_bit s 3) := by
  simp [lookup_flag, dict_get, optsList]

theorem lf_MIN (s o1 o2 : Nat) :
    lookup_flag (optsList s o1 o2) "MIN" = Except.ok (test_bit o1 1) := by
  simp [lookup_flag, dict_get, optsList]

theorem lf_MAX (s o1 o2 : Nat) :
    lookup_flag (optsList s o1 o2) "MAX" = Except.ok (test_bit o1 2) := by
  simp [lookup_flag, dict_get, optsList]

theorem lf_HOLD (s o1 o2 : Nat) :
    lookup_flag (optsList s o1 o2) "HOLD" = Except.ok (test_bit o1 3) := by
  simp [lookup_flag, dict_get, optsList]

theorem lf_AUTO (s o1 o2 : Nat) :
    lookup_flag (optsList s o1 o2) "AUTO" = Except.ok (test_bit o2 1) := by
  simp [lookup_flag, dict_get, optsList]

theorem lf_AC (s o1 o2 : Nat) :
    lookup_flag (optsList s o1 o2) "AC" = Except.ok (test_bit o2 2) := by
  simp [lookup_flag, dict_get, optsList]

theorem lf_DC (s o1 o2 : Nat) :
    lookup_flag (optsList s o1 o2) "DC" = Except.ok (test_bit o2 3) := by
  simp [lookup_flag, dict_get, optsList]

theorem range_lookup_none (dr : Nat) :
    range_lookup none dr = Except.error PyErr.noRangeTable := rfl

theorem range_lookup_oob (table : List RangeDesc) (dr : Nat)
    (h : table.length ≤ dr &&& 0x0f) :
    range_lookup (some table) dr = Except.error PyErr.unknownRange := by
  show (match table[dr &&& 0x0f]? with
        | none => Except.error PyErr.unknownRange
        | some r => Except.ok r) = _
  rw [List.getElem?_eq_none h]

theorem range_lookup_inb (table : List RangeDesc) (dr : Nat)
    (h : dr &&& 0x0f < table.length) :
    range_lookup (some table) dr = Except.ok (table.get ⟨dr &&& 0x0f, h⟩) := by
  show (match table[dr &&& 0x0f]? with
        | none => Except.error PyErr.unknownRange
        | some r => Except.ok r) = _
  rw [List.getElem?_eq_getElem h]
  rfl

/-- Resolution fails with the unknown-function error when the low nibble of
the function byte is not registered. -/
theorem resolve_unknown (df dr : Nat) (options : List (String × Bool))
    (hf : FUNCTION (df &&& 0x0f) = none) :
    resolve_mode_unit_range df dr options = Except.error PyErr.unknownFunction := by
  unfold resolve_mode_unit_range
  rw [hf]

/-- Resolution on a registered function entry, with the options dictionary
coming from a successful template decode: the range descriptor is looked up
first, then the duty-cycle override applies exactly when the mode is
frequency and bit 3 of the status byte (JUDGE) is set. -/
theorem resolve_some (df dr s o1 o2 : Nat) (mo : String)
    (tb : Option (List RangeDesc)) (u : String)
    (hf : FUNCTION (df &&& 0x0f) = some (mo, tb, u)) :
    resolve_mode_unit_range df dr (optsList s o1 o2) =
      match range_lookup tb dr with
      | Except.error e => Except.error e
      | Except.ok mr =>
        if mo == "frequency" && test_bit s 3 then
          Except.ok ("duty_cycle", "%", ⟨1, 1, "%"⟩)
        else Except.ok (mo, u, mr) := by
  unfold resolve_mode_unit_range
  rw [hf]
  dsimp only
  cases hr : range_lookup tb dr with
  | error e => rfl
  | ok mr =>
    simp only [exc_bind_ok]
    cases hm : mo == "frequency" <;> simp [hm, lf_JUDGE, exc_bind_ok]

/-- The unsigned 4-digit reconstruction of lines 225 to 230 of the source:
the low nibbles of the four digit bytes combined most-significant-first as a
base-10 integer.  No nibble is validated, so values 10 to 15 contribute like
ordinary digits. -/
def raw_display_int (p : Packet) : ℤ :=
  ((p.digit0 &&& 0x0f : Nat) : ℤ) * 1000 + ((p.digit1 &&& 0x0f : Nat) : ℤ) * 100 +
    ((p.digit2 &&& 0x0f : Nat) : ℤ) * 10 + ((p.digit3 &&& 0x0f : Nat) : ℤ)

/-- The signed reading of line 231 of the source: the raw reconstruction,
negated when the SIGN flag (bit 2 of the status byte) is set. -/
def signed_display_int (p : Packet) : ℤ :=
  if test_bit p.status 2 then -(raw_display_int p) else raw_display_int p

theorem digits_foldl (p : Packet) :
    ((List.range 4).zip
        [p.digit0 &&& 0x0f, p.digit1 &&& 0x0f, p.digit2 &&& 0x0f, p.digit3 &&& 0x0f]).foldl
      (fun acc pr => acc + (pr.2 : ℤ) * 10 ^ (3 - pr.1)) 0 = raw_display_int p := by
  show (0 + ((p.digit0 &&& 0x0f : Nat) : ℤ) * 10 ^ (3 - 0)
          + ((p.digit1 &&& 0x0f : Nat) : ℤ) * 10 ^ (3 - 1)
          + ((p.digit2 &&& 0x0f : Nat) : ℤ) * 10 ^ (3 - 2)
          + ((p.digit3 &&& 0x0f : Nat) : ℤ) * 10 ^ (3 - 3)) = raw_display_int p
  unfold raw_display_int
  norm_num

/-- The Measurement built on the success path of parse from the resolved
mode, unit and range descriptor, written with the named status bits
substituted for the dictionary lookups; parse_split proves that parse
produces exactly this record. -/
def build_measurement (p : Packet) (mode unit : String) (m_range : RangeDesc) :
    Measurement :=
  let ac := test_bit p.option2 2
  let dc := test_bit p.option2 3
  let current : Option String := if dc then some "DC" else if ac then some "AC" else none
  let ol := test_bit p.status 0
  let operation := if ol then "overload" else "normal"
  let auto := test_bit p.option2 1
  let mrange := if auto then "auto" else "manual"
  let batt := test_bit p.status 1
  let battery_low := if batt then true else false
  let holdF := test_bit p.option1 3
  let hold := if holdF then true else false
  let maxF := test_bit p.option1 2
  let minF := test_bit p.option1 1
  let peak : Option String := if maxF then some "max" else if minF then some "min" else none
  let digits := [p.digit0 &&& 0x0f, p.digit1 &&& 0x0f, p.digit2 &&& 0x0f, p.digit3 &&& 0x0f]
  let display_value_int : ℤ :=
    ((List.range 4).zip digits).foldl (fun acc pr => acc + (pr.2 : ℤ) * 10 ^ (3 - pr.1)) 0
  let sign := test_bit p.status 2
  let display_value_int := if sign then -display_value_int else display_value_int
  let display_value : ℚ := (display_value_int : ℚ) / 10 ^ m_range.dp_digit_position
  let display_unit := m_range.display_unit
  let value : ℚ := display_value * m_range.value_multiplier
  let display_value_out : Option ℚ := if operation ≠ "normal" then none else some display_value
  let value_out : Option ℚ := if operation ≠ "normal" then none else some value
  { value := value_out
    unit := unit
    display_value := display_value_out
    display_unit := display_unit
    mode := mode
    current := current
    peak := peak
    hold := hold
    range := mrange
    operation := operation
    battery_low := battery_low }

/-- parse aborts with the invalid-status-bits error as soon as the fixed
zero bit of the first option byte is set. -/
theorem parse_invalid1 (p : Packet) (h1 : test_bit p.option1 0 = true) :
    parse p = Except.error PyErr.invalidStatusBits := by
  unfold parse
  rw [decode_options_eq, if_pos (by simp [h1])]
  rfl

/-- parse aborts with the invalid-status-bits error when the fixed zero bit
of the second option byte is set (and the first option byte decoded). -/
theorem parse_invalid2 (p : Packet) (h1 : test_bit p.option1 0 = false)
    (h2 : test_bit p.option2 0 = true) :
    parse p = Except.error PyErr.invalidStatusBits := by
  unfold parse
  rw [decode_options_eq, if_neg (by simp [h1]), if_pos (by simp [h2])]
  rfl

/-- Once the three status bytes decode, parse is the resolution step
followed by the AC/DC conflict check and the pure construction of the
Measurement. -/
theorem parse_split (p : Packet) (h1 : test_bit p.option1 0 = false)
    (h2 : test_bit p.option2 0 = false) :
    parse p =
      match resolve_mode_unit_range p.function p.range
          (optsList p.status p.option1 p.option2) with
      | Except.error e => Except.error e
      | Except.ok mur =>
        if test_bit p.option2 2 && test_bit p.option2 3 then
          Except.error PyErr.conflictingCurrentType
        else Except.ok (build_measurement p mur.1 mur.2.1 mur.2.2) := by
  unfold parse
  rw [decode_options_eq, if_neg (by simp [h1]), if_neg (by simp [h2])]
  simp only [exc_bind_ok]
  cases hres : resolve_mode_unit_range p.function p.range
      (optsList p.status p.option1 p.option2) with
  | error e => rfl
  | ok mur =>
    obtain ⟨mo, u, mr⟩ := mur
    simp only [exc_bind_ok, lf_AC, lf_DC]
    cases hcd : test_bit p.option2 2 && test_bit p.option2 3
    · simp only [Bool.false_eq_true, if_false, lf_OL, lf_AUTO, lf_BATT, lf_HOLD,
        lf_MAX, lf_MIN, lf_SIGN, exc_bind_ok]
      rfl
    · simp only [if_true]

theorem bm_value (p : Packet) (mo u : String) (r : RangeDesc) :
    (build_measurement p mo u r).value =
      if test_bit p.status 0 then none
      else some ((signed_display_int p : ℚ) / 10 ^ r.dp_digit_position
                   * r.value_multiplier) := by
  cases ho : test_bit p.status 0 <;>
    simp [build_measurement, ho, signed_display_int, digits_foldl]

theorem bm_unit (p : Packet) (mo u : String) (r : RangeDesc) :
    (build_measurement p mo u r).unit = u := rfl

theorem bm_display_value (p : Packet) (mo u : String) (r : RangeDesc) :
    (build_measurement p mo u r).display_value =
      if test_bit p.status 0 then none
      else some ((signed_display_int p : ℚ) / 10 ^ r.dp_digit_position) := by
  cases ho : test_bit p.status 0 <;>
    simp [build_measurement, ho, signed_display_int, digits_foldl]

theorem bm_display_unit (p : Packet) (mo u : String) (r : RangeDesc) :
    (build_measurement p mo u r).display_unit = r.display_unit := rfl

theorem bm_mode (p : Packet) (mo u : String) (r : RangeDesc) :
    (build_measurement p mo u r).mode = mo := rfl

theorem bm_current (p : Packet) (mo u : String) (r : RangeDesc) :
    (build_measurement p mo u r).current =
      if test_bit p.option2 3 then some "DC"
      else if test_bit p.option2 2 then some "AC" else none := rfl

theorem bm_peak (p : Packet) (mo u : String) (r : RangeDesc) :
    (build_measurement p mo u r).peak =
      if test_bit p.option1 2 then some "max"
      else if test_bit p.option1 1 then some "min" else none := rfl

theorem bm_hold (p : Packet) (mo u : String) (r : RangeDesc) :
    (build_measurement p mo u r).hold = test_bit p.option1 3 := by
  cases hh : test_bit p.option1 3 <;> simp [build_measurement, hh]

theorem bm_range (p : Packet) (mo u : String) (r : RangeDesc) :
    (build_measurement p mo u r).range =
      if test_bit p.option2 1 then "auto" else "manual" := rfl

theorem bm_operation (p : Packet) (mo u : String) (r : RangeDesc) :
    (build_measurement p mo u r).operation =
      if test_bit p.status 0 then "overload" else "normal" := rfl

theorem bm_battery_low (p : Packet) (mo u : String) (r : RangeDesc) :
    (build_measurement p mo u r).battery_low = test_bit p.status 1 := by
  cases hb : test_bit p.status 1 <;> simp [build_measurement, hb]

/-- Inversion of a successful parse: the fixed-zero bits were clear, the
resolution succeeded, no AC/DC conflict was present, and the result is the
Measurement built from the resolved triple. -/
theorem parse_ok_inv (p : Packet) (m : Measurement)
    (hm : parse p = Except.ok m) :
    test_bit p.option1 0 = false ∧ test_bit p.option2 0 = false ∧
    (test_bit p.option2 2 && test_bit p.option2 3) = false ∧
    ∃ mo u r, resolve_mode_unit_range p.function p.range
        (optsList p.status p.option1 p.option2) = Except.ok (mo, u, r) ∧
      m = build_measurement p mo u r := by
  cases h1 : test_bit p.option1 0 with
  | true => rw [parse_invalid1 p h1] at hm; simp at hm
  | false =>
  cases h2 : test_bit p.option2 0 with
  | true => rw [parse_invalid2 p h1 h2] at hm; simp at hm
  | false =>
  rw [parse_split p h1 h2] at hm
  cases hres : resolve_mode_unit_range p.function p.range
      (optsList p.status p.option1 p.option2) with
  | error e => rw [hres] at hm; simp at hm
  | ok mur =>
    obtain ⟨mo, u, r⟩ := mur
    rw [hres] at hm
    dsimp only at hm
    cases hcd : test_bit p.option2 2 && test_bit p.option2 3 with
    | true => rw [hcd] at hm; simp at hm
    | false =>
      rw [hcd] at hm
      simp only [Bool.false_eq_true, if_false, Except.ok.injEq] at hm
      exact ⟨rfl, rfl, rfl, mo, u, r, rfl, hm.symm⟩

/-! Claim theorems. -/

/-- C5: for every 9-byte packet in which the fixed-zero bit (bit 0) of
option1_byte or of option2_byte is set, parsing always fails with the
invalid-status-bits error (the bit-flag decoder's template mismatch on a
literal slot), regardless of all other bytes; no such packet emits a
Measurement or reaches function and range resolution (the error is the one
raised by the template decode, which precedes both). -/
theorem c5_fixed_zero_bit_always_fails (p : Packet)
    (h : test_bit p.option1 0 = true ∨ test_bit p.option2 0 = true) :
    parse p = Except.error PyErr.invalidStatusBits := by
  rcases h with h | h
  · exact parse_invalid1 p h
  · cases h1 : test_bit p.option1 0 with
    | false => exact parse_invalid2 p h1 h
    | true => exact parse_invalid1 p h1

theorem c5_fixed_zero_bit_always_fails_witness :
    parse ⟨0, 0, 0, 0, 0, 0x0b, 0, 1, 0⟩ = Except.error PyErr.invalidStatusBits :=
  c5_fixed_zero_bit_always_fails ⟨0, 0, 0, 0, 0, 0x0b, 0, 1, 0⟩ (Or.inl rfl)

/-- C6: for every packet whose status bytes decode successfully, a function
byte whose low nibble is not one of the registered codes 0x01 to 0x06, 0x09,
0x0b, 0x0d, 0x0e, 0x0f makes parsing fail with the unknown-function error;
in particular low nibble 0x0a does. -/
theorem c6_unregistered_function_fails (p : Packet) (opts : List (String × Bool))
    (hdec : decode_options p.status p.option1 p.option2 = Except.ok opts)
    (hn : (p.function &&& 0x0f) ∉
      ([0x01, 0x02, 0x03, 0x04, 0x05, 0x06, 0x09, 0x0b, 0x0d, 0x0e, 0x0f] : List Nat)) :
    parse p = Except.error PyErr.unknownFunction := by
  obtain ⟨h1, h2, -⟩ := (decode_options_ok_iff _ _ _ _).1 hdec
  have hf : FUNCTION (p.function &&& 0x0f) = none := by
    have hlt : p.function &&& 0x0f < 16 :=
      lt_of_le_of_lt Nat.and_le_right (by norm_num)
    generalize hgen : p.function &&& 0x0f = n at hn hlt
    interval_cases n <;> first | rfl | exact absurd (by decide) hn
  rw [parse_split p h1 h2, resolve_unknown p.function p.range _ hf]

theorem c6_unregistered_function_fails_witness :
    parse ⟨0, 0, 0, 0, 0, 0x0a, 0, 0, 0⟩ = Except.error PyErr.unknownFunction :=
  c6_unregistered_function_fails ⟨0, 0, 0, 0, 0, 0x0a, 0, 0, 0⟩
    (optsList 0 0 0) rfl (by decide)

/-- C7: every packet whose function code low nibble is 0x04 (temperature,
which has no range table) fails to parse: either the status templates
already fail, or the subscription of the absent range table raises, so no
Measurement with a resolved value, scale or decimal-point position is ever
emitted. -/
theorem c7_temperature_never_resolves (p : Packet)
    (h4 : p.function &&& 0x0f = 4) :
    parse p = Except.error PyErr.invalidStatusBits ∨
      parse p = Except.error PyErr.noRangeTable := by
  cases h1 : test_bit p.option1 0 with
  | true => exact Or.inl (parse_invalid1 p h1)
  | false =>
  cases h2 : test_bit p.option2 0 with
  | true => exact Or.inl (parse_invalid2 p h1 h2)
  | false =>
  right
  rw [parse_split p h1 h2,
    resolve_some p.function p.range p.status p.option1 p.option2 "temperature" none "deg"
      (by rw [h4]; rfl)]
  rfl

theorem c7_temperature_never_resolves_witness :
    parse ⟨0, 0, 0, 0, 0, 4, 0, 0, 0⟩ = Except.error PyErr.invalidStatusBits ∨
      parse ⟨0, 0, 0, 0, 0, 4, 0, 0, 0⟩ = Except.error PyErr.noRangeTable :=
  c7_temperature_never_resolves ⟨0, 0, 0, 0, 0, 4, 0, 0, 0⟩ rfl

/-- C9: the human-readable adapter renders the line made of display value
and display unit when the operation is normal, and the overload line
otherwise; but when battery_low is set the source calls append on that
string, which raises AttributeError instead of returning a line with the
battery warning, so the adapter never returns on a low battery. -/
theorem c9_battery_low_append_crashes :
    output_readable ⟨some 6, "V", some 6, "V", "voltage", some "DC", none,
      false, "manual", "normal", true⟩ = Except.error PyErr.attributeError := rfl

/-- C10: whenever the three status-bearing bytes decode successfully, the
assembled flag dictionary holds exactly the ten names OL, BATT, SIGN,
JUDGE, MIN, MAX, HOLD, AUTO, AC and DC, so every dictionary lookup the
parser performs afterwards succeeds and never raises KeyError. -/
theorem c10_flag_dictionary_complete (s o1 o2 : Nat) (opts : List (String × Bool))
    (hdec : decode_options s o1 o2 = Except.ok opts) :
    opts.map Prod.fst =
      ["OL", "BATT", "SIGN", "JUDGE", "MIN", "MAX", "HOLD", "AUTO", "AC", "DC"] ∧
    ∀ k ∈ (["JUDGE", "AC", "DC", "OL", "AUTO", "BATT", "HOLD", "MAX", "MIN", "SIGN"] :
        List String), lookup_flag opts k ≠ Except.error PyErr.keyError := by
  obtain ⟨-, -, ho⟩ := (decode_options_ok_iff _ _ _ _).1 hdec
  subst ho
  refine ⟨rfl, ?_⟩
  intro k hk
  fin_cases hk <;>
    simp [lf_JUDGE, lf_AC, lf_DC, lf_OL, lf_AUTO, lf_BATT, lf_HOLD, lf_MAX, lf_MIN, lf_SIGN]

theorem c10_flag_dictionary_complete_witness :
    (optsList 0 0 0).map Prod.fst =
      ["OL", "BATT", "SIGN", "JUDGE", "MIN", "MAX", "HOLD", "AUTO", "AC", "DC"] ∧
    lookup_flag (optsList 0 0 0) "JUDGE" ≠ Except.error PyErr.keyError :=
  ⟨(c10_flag_dictionary_complete 0 0 0 (optsList 0 0 0) rfl).1,
   (c10_flag_dictionary_complete 0 0 0 (optsList 0 0 0) rfl).2 "JUDGE" (by decide)⟩

/-- C1: for every packet that parses successfully with operation normal,
the emitted display value times 10 to the decimal-point position of the
resolved range descriptor (after any mode override) equals, exactly in
rational arithmetic, the signed integer obtained by combining the low
nibbles of the four digit bytes most-significant-first in base 10 and
negating it when the SIGN flag is set. -/
theorem c1_display_value_exact_reconstruction (p : Packet) (m : Measurement)
    (opts : List (String × Bool)) (mur : String × String × RangeDesc)
    (hdec : decode_options p.status p.option1 p.option2 = Except.ok opts)
    (hres : resolve_mode_unit_range p.function p.range opts = Except.ok mur)
    (hm : parse p = Except.ok m) (hop : m.operation = "normal") :
    ∃ q : ℚ, m.display_value = some q ∧
      q * 10 ^ mur.2.2.dp_digit_position = (signed_display_int p : ℚ) := by
  obtain ⟨-, -, ho⟩ := (decode_options_ok_iff _ _ _ _).1 hdec
  subst ho
  obtain ⟨-, -, -, mo, u, r, hres2, hbm⟩ := parse_ok_inv p m hm
  rw [hres2] at hres
  obtain rfl : mur = (mo, u, r) := (Except.ok.inj hres).symm
  subst hbm
  rw [bm_operation] at hop
  cases holb : test_bit p.status 0 with
  | true => rw [holb] at hop; simp at hop
  | false =>
    refine ⟨(signed_display_int p : ℚ) / 10 ^ r.dp_digit_position, ?_, ?_⟩
    · simp [bm_display_value, holb]
    · exact div_mul_cancel₀ _ (by positivity)

theorem c1_display_value_exact_reconstruction_witness :
    ∃ q : ℚ,
      (build_measurement ⟨0, 6, 0, 0, 0, 0x0b, 0, 0, 8⟩ "voltage" "V"
          ⟨1, 3, "V"⟩).display_value = some q ∧
      q * 10 ^ 3 = (signed_display_int ⟨0, 6, 0, 0, 0, 0x0b, 0, 0, 8⟩ : ℚ) :=
  c1_display_value_exact_reconstruction ⟨0, 6, 0, 0, 0, 0x0b, 0, 0, 8⟩
    (build_measurement ⟨0, 6, 0, 0, 0, 0x0b, 0, 0, 8⟩ "voltage" "V" ⟨1, 3, "V"⟩)
    (optsList 0 0 8) ("voltage", "V", ⟨1, 3, "V"⟩) rfl rfl rfl rfl

/-- C3 counterexample: a packet with function nibble 0x02 (frequency) and
JUDGE set but range nibble 5 does not parse into a duty-cycle Measurement;
the range-table subscription raises before the override is reached, so
parsing fails with the unknown-range error, refuting the claim for this
range byte. -/
theorem c3_counterexample :
    (⟨5, 0, 0, 0, 0, 2, 8, 0, 0⟩ : Packet).function &&& 0x0f = 2 ∧
    test_bit (⟨5, 0, 0, 0, 0, 2, 8, 0, 0⟩ : Packet).status 3 = true ∧
    parse ⟨5, 0, 0, 0, 0, 2, 8, 0, 0⟩ = Except.error PyErr.unknownRange :=
  ⟨rfl, rfl, rfl⟩

/-- C3 amended: for every packet with function nibble 0x02 and JUDGE set
whose status bytes decode and whose range nibble is a valid index into the
5-entry frequency table, resolution yields mode duty_cycle, unit percent
and the forced descriptor (1, 1, percent) independently of which valid
range index was supplied, and any successfully parsed Measurement carries
that mode and unit. -/
theorem c3_duty_cycle_override_valid_range (p : Packet)
    (opts : List (String × Bool))
    (hf2 : p.function &&& 0x0f = 2)
    (hj : test_bit p.status 3 = true)
    (hdec : decode_options p.status p.option1 p.option2 = Except.ok opts)
    (hr5 : p.range &&& 0x0f < 5) :
    resolve_mode_unit_range p.function p.range opts =
      Except.ok ("duty_cycle", "%", ⟨1, 1, "%"⟩) ∧
    ∀ m, parse p = Except.ok m →
      m.mode = "duty_cycle" ∧ m.unit = "%" ∧ m.display_unit = "%" := by
  obtain ⟨h1, h2, ho⟩ := (decode_options_ok_iff _ _ _ _).1 hdec
  subst ho
  have hres : resolve_mode_unit_range p.function p.range
      (optsList p.status p.option1 p.option2) =
      Except.ok ("duty_cycle", "%", ⟨1, 1, "%"⟩) := by
    rw [resolve_some p.function p.range p.status p.option1 p.option2 "frequency"
        (some RANGE_FREQUENCY) "Hz" (by rw [hf2]; rfl),
      range_lookup_inb RANGE_FREQUENCY p.range (by simpa [RANGE_FREQUENCY] using hr5)]
    simp [hj]
  refine ⟨hres, ?_⟩
  intro m hm
  obtain ⟨-, -, -, mo, u, r, hres2, hbm⟩ := parse_ok_inv p m hm
  rw [hres] at hres2
  have h3 := Except.ok.inj hres2
  simp only [Prod.mk.injEq] at h3
  obtain ⟨hmo, hu, hr⟩ := h3
  subst hbm
  subst hmo
  subst hu
  subst hr
  simp [bm_mode, bm_unit, bm_display_unit]

theorem c3_duty_cycle_override_valid_range_witness :
    resolve_mode_unit_range 2 3 (optsList 8 0 0) =
      Except.ok ("duty_cycle", "%", ⟨1, 1, "%"⟩) ∧
    ((build_measurement ⟨3, 0, 0, 0, 0, 2, 8, 0, 0⟩ "duty_cycle" "%"
        ⟨1, 1, "%"⟩).mode = "duty_cycle" ∧
      (build_measurement ⟨3, 0, 0, 0, 0, 2, 8, 0, 0⟩ "duty_cycle" "%"
        ⟨1, 1, "%"⟩).unit = "%" ∧
      (build_measurement ⟨3, 0, 0, 0, 0, 2, 8, 0, 0⟩ "duty_cycle" "%"
        ⟨1, 1, "%"⟩).display_unit = "%") :=
  ⟨(c3_duty_cycle_override_valid_range ⟨3, 0, 0, 0, 0, 2, 8, 0, 0⟩
      (optsList 8 0 0) rfl rfl rfl (by decide)).1,
   (c3_duty_cycle_override_valid_range ⟨3, 0, 0, 0, 0, 2, 8, 0, 0⟩
      (optsList 8 0 0) rfl rfl rfl (by decide)).2
    (build_measurement ⟨3, 0, 0, 0, 0, 2, 8, 0, 0⟩ "duty_cycle" "%" ⟨1, 1, "%"⟩) rfl⟩

/-- C4 counterexample: a packet with both the AC bit (bit 2) and the DC bit
(bit 3) of option2_byte set but an unregistered function nibble 0x0a fails
with the unknown-function error, not with the conflicting-current-type
error, refuting the claim that every such packet fails with the latter. -/
theorem c4_counterexample :
    test_bit (⟨0, 0, 0, 0, 0, 0x0a, 0, 0, 0x0c⟩ : Packet).option2 2 = true ∧
    test_bit (⟨0, 0, 0, 0, 0, 0x0a, 0, 0, 0x0c⟩ : Packet).option2 3 = true ∧
    parse ⟨0, 0, 0, 0, 0, 0x0a, 0, 0, 0x0c⟩ = Except.error PyErr.unknownFunction ∧
    PyErr.unknownFunction ≠ PyErr.conflictingCurrentType :=
  ⟨rfl, rfl, rfl, by decide⟩

/-- C4 amended: a packet with both AC (bit 2) and DC (bit 3) of
option2_byte set never parses successfully, and it fails precisely with the
conflicting-current-type error whenever the status templates decode and the
function and range resolve; on every successfully parsed packet, current is
DC when the DC bit is set, else AC when the AC bit is set, else absent. -/
theorem c4_conflict_and_current_resolution :
    (∀ p : Packet, test_bit p.option2 2 = true → test_bit p.option2 3 = true →
      (∀ m, parse p ≠ Except.ok m) ∧
      (∀ (opts : List (String × Bool)) (mur : String × String × RangeDesc),
        decode_options p.status p.option1 p.option2 = Except.ok opts →
        resolve_mode_unit_range p.function p.range opts = Except.ok mur →
        parse p = Except.error PyErr.conflictingCurrentType)) ∧
    (∀ (p : Packet) (m : Measurement), parse p = Except.ok m →
      m.current = if test_bit p.option2 3 then some "DC"
        else if test_bit p.option2 2 then some "AC" else none) := by
  constructor
  · intro p hac hdc
    constructor
    · intro m hm
      obtain ⟨-, -, hcd, -⟩ := parse_ok_inv p m hm
      rw [hac, hdc] at hcd
      simp at hcd
    · intro opts mur hdec hres
      obtain ⟨h1, h2, ho⟩ := (decode_options_ok_iff _ _ _ _).1 hdec
      subst ho
      rw [parse_split p h1 h2, hres]
      dsimp only
      rw [hac, hdc]
      rfl
  · intro p m hm
    obtain ⟨-, -, -, mo, u, r, -, hbm⟩ := parse_ok_inv p m hm
    subst hbm
    exact bm_current p mo u r

theorem c4_conflict_and_current_resolution_witness :
    parse ⟨0, 0, 0, 0, 0, 0x0b, 0, 0, 0x0c⟩ =
      Except.error PyErr.conflictingCurrentType ∧
    (build_measurement ⟨0, 6, 0, 0, 0, 0x0b, 0, 0, 8⟩ "voltage" "V"
        ⟨1, 3, "V"⟩).current = some "DC" :=
  ⟨(c4_conflict_and_current_resolution.1 ⟨0, 0, 0, 0, 0, 0x0b, 0, 0, 0x0c⟩ rfl rfl).2
      (optsList 0 0 0x0c) ("voltage", "V", ⟨1, 3, "V"⟩) rfl rfl,
   c4_conflict_and_current_resolution.2 ⟨0, 6, 0, 0, 0, 0x0b, 0, 0, 8⟩
      (build_measurement ⟨0, 6, 0, 0, 0, 0x0b, 0, 0, 8⟩ "voltage" "V" ⟨1, 3, "V"⟩) rfl⟩

/-- C8: digit-byte low nibbles 10 to 15 are never rejected: replacing the
four digit bytes of any packet never changes which error (if any) parsing
produces, and every successfully parsed normal Measurement carries a
display value q with q times 10 to some power equal to the base-10
combination of the four low nibbles (each nibble contributing its value
times 10 to the power 3 minus its position, with no 0 to 9 restriction),
sign-adjusted, possibly outside the normal 4-digit range. -/
theorem c8_digit_nibbles_unvalidated :
    (∀ (p : Packet) (d0 d1 d2 d3 : Nat) (e : PyErr),
      parse { p with digit0 := d0, digit1 := d1, digit2 := d2, digit3 := d3 } =
          Except.error e ↔ parse p = Except.error e) ∧
    (∀ (p : Packet) (m : Measurement), parse p = Except.ok m →
      m.operation = "normal" →
      ∃ (q : ℚ) (dp : Nat), m.display_value = some q ∧
        q * 10 ^ dp = (signed_display_int p : ℚ)) := by
  constructor
  · intro p d0 d1 d2 d3 e
    cases h1 : test_bit p.option1 0 with
    | true =>
      rw [parse_invalid1 { p with digit0 := d0, digit1 := d1, digit2 := d2, digit3 := d3 } h1,
        parse_invalid1 p h1]
    | false =>
    cases h2 : test_bit p.option2 0 with
    | true =>
      rw [parse_invalid2 { p with digit0 := d0, digit1 := d1, digit2 := d2, digit3 := d3 } h1 h2,
        parse_invalid2 p h1 h2]
    | false =>
    rw [parse_split { p with digit0 := d0, digit1 := d1, digit2 := d2, digit3 := d3 } h1 h2,
      parse_split p h1 h2]
    dsimp only
    cases hres : resolve_mode_unit_range p.function p.range
        (optsList p.status p.option1 p.option2) with
    | error e2 => rfl
    | ok mur =>
      cases hcd : test_bit p.option2 2 && test_bit p.option2 3 with
      | true => simp
      | false => simp
  · intro p m hm hop
    obtain ⟨-, -, -, mo, u, r, -, hbm⟩ := parse_ok_inv p m hm
    subst hbm
    rw [bm_operation] at hop
    cases holb : test_bit p.status 0 with
    | true => rw [holb] at hop; simp at hop
    | false =>
      refine ⟨(signed_display_int p : ℚ) / 10 ^ r.dp_digit_position,
        r.dp_digit_position, ?_, ?_⟩
      · simp [bm_display_value, holb]
      · exact div_mul_cancel₀ _ (by positivity)

theorem c8_digit_nibbles_unvalidated_witness :
    (parse ⟨0, 15, 0, 0, 6, 0x0b, 0, 0, 0⟩ = Except.error PyErr.unknownFunction ↔
      parse ⟨0, 1, 2, 3, 6, 0x0b, 0, 0, 0⟩ = Except.error PyErr.unknownFunction) ∧
    ∃ (q : ℚ) (dp : Nat),
      (build_measurement ⟨0, 15, 0, 0, 0, 0x0b, 0, 0, 0⟩ "voltage" "V"
          ⟨1, 3, "V"⟩).display_value = some q ∧
      q * 10 ^ dp = (signed_display_int ⟨0, 15, 0, 0, 0, 0x0b, 0, 0, 0⟩ : ℚ) :=
  ⟨c8_digit_nibbles_unvalidated.1 ⟨0, 1, 2, 3, 6, 0x0b, 0, 0, 0⟩ 15 0 0 6
      PyErr.unknownFunction,
   c8_digit_nibbles_unvalidated.2 ⟨0, 15, 0, 0, 0, 0x0b, 0, 0, 0⟩
      (build_measurement ⟨0, 15, 0, 0, 0, 0x0b, 0, 0, 0⟩ "voltage" "V" ⟨1, 3, "V"⟩)
      rfl rfl⟩

/-- C2: a packet with the OL bit (bit 0 of the status byte) set that
parses successfully yields operation overload with value and display_value
absent, whatever the digit bytes hold, and the packet with the same bytes
except OL cleared parses to a Measurement agreeing on every other field
(unit, display_unit, mode, current, peak, hold, range and battery_low). -/
theorem c2_overload_suppresses_and_preserves (p : Packet) (s2 : Nat)
    (m : Measurement)
    (hOL : test_bit p.status 0 = true)
    (h0 : test_bit s2 0 = false)
    (hb1 : test_bit s2 1 = test_bit p.status 1)
    (hb2 : test_bit s2 2 = test_bit p.status 2)
    (hb3 : test_bit s2 3 = test_bit p.status 3)
    (hm : parse p = Except.ok m) :
    m.operation = "overload" ∧ m.value = none ∧ m.display_value = none ∧
    ∃ m2, parse { p with status := s2 } = Except.ok m2 ∧
      m2.unit = m.unit ∧ m2.display_unit = m.display_unit ∧ m2.mode = m.mode ∧
      m2.current = m.current ∧ m2.peak = m.peak ∧ m2.hold = m.hold ∧
      m2.range = m.range ∧ m2.battery_low = m.battery_low := by
  obtain ⟨h1, h2, hcd, mo, u, r, hres, hbm⟩ := parse_ok_inv p m hm
  subst hbm
  have hres2 : resolve_mode_unit_range p.function p.range
      (optsList s2 p.option1 p.option2) = Except.ok (mo, u, r) := by
    rw [← hres]
    cases hf : FUNCTION (p.function &&& 0x0f) with
    | none => rw [resolve_unknown _ _ _ hf, resolve_unknown _ _ _ hf]
    | some fe =>
      obtain ⟨mo2, tb, u2⟩ := fe
      rw [resolve_some p.function p.range s2 p.option1 p.option2 mo2 tb u2 hf,
        resolve_some p.function p.range p.status p.option1 p.option2 mo2 tb u2 hf, hb3]
  refine ⟨?_, ?_, ?_,
    build_measurement { p with status := s2 } mo u r, ?_, ?_, ?_, ?_, ?_, ?_, ?_, ?_, ?_⟩
  · simp [bm_operation, hOL]
  · simp [bm_value, hOL]
  · simp [bm_display_value, hOL]
  · rw [parse_split { p with status := s2 } h1 h2]
    dsimp only
    rw [hres2]
    dsimp only
    rw [hcd]
    rfl
  · simp [bm_unit]
  · simp [bm_display_unit]
  · simp [bm_mode]
  · simp [bm_current]
  · simp [bm_peak]
  · simp [bm_hold]
  · simp [bm_range]
  · simp [bm_battery_low, hb1]

theorem c2_overload_suppresses_and_preserves_witness :
    (build_measurement ⟨0, 6, 0, 0, 0, 0x0b, 1, 0, 8⟩ "voltage" "V"
        ⟨1, 3, "V"⟩).operation = "overload" ∧
    (build_measurement ⟨0, 6, 0, 0, 0, 0x0b, 1, 0, 8⟩ "voltage" "V"
        ⟨1, 3, "V"⟩).value = none ∧
    (build_measurement ⟨0, 6, 0, 0, 0, 0x0b, 1, 0, 8⟩ "voltage" "V"
        ⟨1, 3, "V"⟩).display_value = none ∧
    ∃ m2, parse ⟨0, 6, 0, 0, 0, 0x0b, 0, 0, 8⟩ = Except.ok m2 ∧
      m2.unit = (build_measurement ⟨0, 6, 0, 0, 0, 0x0b, 1, 0, 8⟩ "voltage" "V"
        ⟨1, 3, "V"⟩).unit ∧
      m2.display_unit = (build_measurement ⟨0, 6, 0, 0, 0, 0x0b, 1, 0, 8⟩ "voltage" "V"
        ⟨1, 3, "V"⟩).display_unit ∧
      m2.mode = (build_measurement ⟨0, 6, 0, 0, 0, 0x0b, 1, 0, 8⟩ "voltage" "V"
        ⟨1, 3, "V"⟩).mode ∧
      m2.current = (build_measurement ⟨0, 6, 0, 0, 0, 0x0b, 1, 0, 8⟩ "voltage" "V"
        ⟨1, 3, "V"⟩).current ∧
      m2.peak = (build_measurement ⟨0, 6, 0, 0, 0, 0x0b, 1, 0, 8⟩ "voltage" "V"
        ⟨1, 3, "V"⟩).peak ∧
      m2.hold = (build_measurement ⟨0, 6, 0, 0, 0, 0x0b, 1, 0, 8⟩ "voltage" "V"
        ⟨1, 3, "V"⟩).hold ∧
      m2.range = (build_measurement ⟨0, 6, 0, 0, 0, 0x0b, 1, 0, 8⟩ "voltage" "V"
        ⟨1, 3, "V"⟩).range ∧
      m2.battery_low = (build_measurement ⟨0, 6, 0, 0, 0, 0x0b, 1, 0, 8⟩ "voltage" "V"
        ⟨1, 3, "V"⟩).battery_low :=
  c2_overload_suppresses_and_preserves ⟨0, 6, 0, 0, 0, 0x0b, 1, 0, 8⟩ 0
    (build_measurement ⟨0, 6, 0, 0, 0, 0x0b, 1, 0, 8⟩ "voltage" "V" ⟨1, 3, "V"⟩)
    rfl rfl rfl rfl rfl rfl
